import Mathlib

/-!
Shallow embedding of
`packages/opentelemetry-instrumentation-openai/opentelemetry/instrumentation/openai/shared/embeddings_wrappers.py`.

Python values flowing through the wrappers (request kwargs, response bodies,
attribute values) are modelled by the inductive `Value`; Python `None` is
`Value.vnone`, dictionaries are association lists in insertion order.
Python exceptions are modelled by `Exc` (class name + message).  Fallible
Python operations (`dict.get` on a non-dict, indexing, `len`, `.items()`)
return `Except Exc`.

Telemetry side effects (counter adds, histogram records, span start/end,
span attribute sets, warning logs) are modelled as an event list that each
wrapper emits alongside its result; events emitted before an exception
escapes are kept, matching Python's evaluation order.

External collaborators that are imported by the source file but live
outside it (`is_openai_v1`, `model_as_dict`, `_get_openai_base_url`,
`OPENAI_LLM_USAGE_TOKEN_TYPES`, `should_send_prompts`,
`_set_request_attributes`, `_set_response_attributes`, the span's
`set_attribute` and `is_recording`) are modelled from the spec as
parameters of the wrapper contexts; see the doc comments on
`MetricsCtx` and `TraceCtx`.
-/

/-- A Python value as seen by the wrappers: `None`, a string, an integer,
a list, or a dict (association list in insertion order). -/
inductive Value where
  | vnone : Value
  | str (s : String) : Value
  | int (n : Int) : Value
  | list (vs : List Value) : Value
  | dict (entries : List (String × Value)) : Value
deriving Repr

/-- Python truthiness: `None`, `""`, `0`, `[]`, `{}` are falsy. -/
def Value.truthy : Value → Bool
  | .vnone => false
  | .str s => !s.isEmpty
  | .int n => n != 0
  | .list vs => !vs.isEmpty
  | .dict es => !es.isEmpty

/-- A Python exception: its class name and its message (`str(e)`). -/
structure Exc where
  className : String
  message : String
deriving Repr, DecidableEq

/-- First binding of a key in an association list, like a Python dict lookup
(Python dicts have unique keys; the first binding is the authoritative one). -/
def lookup (es : List (String × Value)) (k : String) : Option Value :=
  (es.find? (fun kv => kv.1 == k)).map (fun kv => kv.2)

/-- Python `AttributeError` raised by calling `.get`/`.items` on a non-dict. -/
def attributeError : Exc := ⟨"AttributeError", "object has no attribute"⟩

/-- Python `TypeError` raised by `len` on an object without a length, or by
subscripting a non-sequence. -/
def typeError : Exc := ⟨"TypeError", "type error"⟩

/-- Python `IndexError` raised by indexing past the end of a list. -/
def indexError : Exc := ⟨"IndexError", "list index out of range"⟩

/-- Python `d.get(k)`: `None` when the key is absent; raises
`AttributeError` when the receiver is not a dict. -/
def Value.get : Value → String → Except Exc Value
  | .dict es, k => .ok ((lookup es k).getD .vnone)
  | _, _ => .error attributeError

/-- Python `d.get(k, default)`: the default when the key is absent; raises
`AttributeError` when the receiver is not a dict. -/
def Value.getDefault : Value → String → Value → Except Exc Value
  | .dict es, k, d => .ok ((lookup es k).getD d)
  | _, _, _ => .error attributeError

/-- Python `d.items()` in insertion order; raises `AttributeError` on a
non-dict. -/
def Value.items : Value → Except Exc (List (String × Value))
  | .dict es => .ok es
  | _ => .error attributeError

/-- Lines 74-75 of the source: `if usage is not None: for name, val in
usage.items()`.  `None` yields no entries; a non-`None` non-dict raises as
`.items()` does. -/
def usageEntries : Value → Except Exc (List (String × Value))
  | .vnone => .ok []
  | v => v.items

/-- Python `len`: defined for lists, strings and dicts; raises `TypeError`
otherwise (`None`, int). -/
def pyLen : Value → Except Exc Int
  | .list vs => .ok vs.length
  | .str s => .ok s.length
  | .dict es => .ok es.length
  | _ => .error typeError

/-- Python `x[i]` for a natural index: raises `IndexError` past the end of a
list and `TypeError` on a non-subscriptable value. -/
def pyIndex : Value → Nat → Except Exc Value
  | .list vs, i =>
    match vs.get? i with
    | some x => .ok x
    | none => .error indexError
  | .str s, i =>
    match (s.data.get? i) with
    | some c => .ok (.str (String.mk [c]))
    | none => .error indexError
  | _, _ => .error typeError

/-- Python `a or b`: `a` when truthy, else `b`. -/
def pyOr (a b : Value) : Value := if a.truthy then a else b

/-- Characters before the first underscore. -/
def takeUntilUnderscore : List Char → List Char
  | [] => []
  | c :: cs => if c = '_' then [] else c :: takeUntilUnderscore cs

/-- Python `name.split('_')[0]`: the first underscore-separated segment
(the whole string when it has no underscore, empty when it starts with
one — exactly what splitting on underscores and taking the head yields). -/
def firstSegment (name : String) : String :=
  String.mk (takeUntilUnderscore name.data)

/-- The three metric instruments passed to `embeddings_metrics_wrapper`:
`token_counter`, `vector_size_counter`, `duration_histogram`. -/
inductive Instrument where
  | tokenCounter : Instrument
  | vectorSizeCounter : Instrument
  | durationHistogram : Instrument
deriving Repr, DecidableEq

/-- One telemetry side effect performed by a wrapper, in program order. -/
inductive Event where
  | counterAdd (instrument : Instrument) (amount : Value) (attrs : List (String × Value)) : Event
  | histRecord (instrument : Instrument) (value : Int) (attrs : List (String × Value)) : Event
  | spanStart (name : String) (kind : String) (attrs : List (String × Value)) : Event
  | spanEnd : Event
  | setAttr (key : String) (value : Value) : Event
  | logWarning (msg : String) : Event
deriving Repr

/-- Ambient collaborators of `embeddings_metrics_wrapper`.

Modelled from the spec: `suppressed` is the Suppression Gate read from the
ambient context (`context_api.get_value(_SUPPRESS_INSTRUMENTATION_KEY)`);
`isV1` is the version-detection flag `is_openai_v1()`; `modelAsDict` is the
external normalization `model_as_dict` (convert-a-typed-response-to-a-
mapping); `baseUrl` is `_get_openai_base_url()`, used to tag
`server.address`; `tokenTypes` is the fixed allow-list
`OPENAI_LLM_USAGE_TOKEN_TYPES` of recognized token-type keys. -/
structure MetricsCtx where
  suppressed : Bool
  isV1 : Bool
  modelAsDict : Value → Value
  baseUrl : String
  tokenTypes : List String

/-- The attribute set built on the exception path (lines 49-52):
`error.type` is the exception class name, `server.address` the resolved
base URL. -/
def errorAttributes (ctx : MetricsCtx) (e : Exc) : List (String × Value) :=
  [("error.type", .str e.className), ("server.address", .str ctx.baseUrl)]

/-- The error-path telemetry of `embeddings_metrics_wrapper` (lines 46-60):
build `{error.type, server.address}`, add 1 to both counters, record the
duration only when it is strictly positive, and re-raise the exception. -/
def metricsError (ctx : MetricsCtx) (duration : Int) (e : Exc) :
    Except Exc Value × List Event :=
  let attrs := errorAttributes ctx e
  (.error e,
    [.counterAdd .tokenCounter (.int 1) attrs,
     .counterAdd .vectorSizeCounter (.int 1) attrs]
      ++ if duration > 0 then [.histRecord .durationHistogram duration attrs] else [])

/-- The token-counter adds of the usage loop (lines 75-78): one add per
usage entry whose key is in the allow-list, tagged with the shared
attributes plus `llm.usage.token_type` set to the key's first
underscore-separated segment. -/
def tokenEvents (tokenTypes : List String) (shared : List (String × Value))
    (entries : List (String × Value)) : List Event :=
  entries.filterMap fun nv =>
    if nv.1 ∈ tokenTypes then
      some (.counterAdd .tokenCounter nv.2
        (shared ++ [("llm.usage.token_type", .str (firstSegment nv.1))]))
    else none

/-- The success path of `embeddings_metrics_wrapper` (lines 62-90):
normalize, build shared attributes, token adds, vector-size add, duration
record, return the response.  Events emitted before a failing step are
kept, matching Python's evaluation order. -/
def metricsSuccess (ctx : MetricsCtx) (response : Value) (duration : Int) :
    Except Exc Value × List Event :=
  let response_dict := if ctx.isV1 then ctx.modelAsDict response else response
  match response_dict.get "model" with
  | .error e => (.error e, [])
  | .ok modelV =>
    let shared : List (String × Value) :=
      [("llm.response.model", pyOr modelV .vnone),
       ("server.address", .str ctx.baseUrl)]
    match response_dict.get "usage" with
    | .error e => (.error e, [])
    | .ok usage =>
      match usageEntries usage with
      | .error e => (.error e, [])
      | .ok usageItems =>
        let tokenEvts := tokenEvents ctx.tokenTypes shared usageItems
        match response_dict.get "data" with
        | .error e => (.error e, tokenEvts)
        | .ok dataV =>
          match pyIndex (pyOr dataV (.list [.dict []])) 0 with
          | .error e => (.error e, tokenEvts)
          | .ok first =>
            match first.getDefault "embedding" (.list []) with
            | .error e => (.error e, tokenEvts)
            | .ok emb =>
              match pyLen emb with
              | .error e => (.error e, tokenEvts)
              | .ok vecSize =>
                (.ok response,
                  tokenEvts
                    ++ [Event.counterAdd .vectorSizeCounter (.int vecSize) shared,
                        Event.histRecord .durationHistogram duration shared])

/-- `embeddings_metrics_wrapper` (lines 32-90).  `startClock` is the
`time.time()` read at line 43 (it may raise, which is what the
`'start_time' in locals()` guard at line 48 defends against); `endClock`
is the value of the later `time.time()` reads (lines 45 and 47), modelled
as one infallible read; `wrapped` is the outcome of the underlying call. -/
def embeddings_metrics_wrapper (ctx : MetricsCtx) (startClock : Except Exc Int)
    (endClock : Int) (wrapped : Except Exc Value) :
    Except Exc Value × List Event :=
  if ctx.suppressed then (wrapped, [])
  else
    match startClock with
    | .error e0 => metricsError ctx 0 e0
    | .ok startTime =>
      match wrapped with
      | .error e => metricsError ctx (endClock - startTime) e
      | .ok response => metricsSuccess ctx response (endClock - startTime)

/-- Ambient collaborators of the tracing wrappers.

Modelled from the spec: `suppressed` is the Suppression Gate;
`isV1`/`modelAsDict` as in `MetricsCtx`; `shouldSendPrompts` is the privacy
toggle `should_send_prompts()`; `isRecording` is the span's
`is_recording()`; `reqAttrs` is the behavior of the external
`_set_request_attributes` (the request attributes it sets on the span
before its outcome, which may be an exception); `respAttrs` is likewise the
external `_set_response_attributes`, as a function of the normalized
response; `attrFail` is the failure oracle of the external span
`set_attribute` collaborator used by `_set_span_attribute` (`some e` means
setting that key/value raises `e`; `none` means it succeeds and sets the
attribute). -/
structure TraceCtx where
  suppressed : Bool
  isV1 : Bool
  modelAsDict : Value → Value
  shouldSendPrompts : Bool
  isRecording : Bool
  reqAttrs : Except Exc Unit × List (String × Value)
  respAttrs : Value → Except Exc Unit × List (String × Value)
  attrFail : String → Value → Option Exc

/-- Attribute-setting events for a list of key/value pairs set on the span. -/
def setAttrEvents (attrs : List (String × Value)) : List Event :=
  attrs.map fun kv => .setAttr kv.1 kv.2

/-- The span attribute key `f"{SpanAttributes.LLM_PROMPTS}.{i}.content"`
(`SpanAttributes.LLM_PROMPTS` is the external constant `"llm.prompts"`,
per the spec's attribute key surface). -/
def promptKey (i : Nat) : String :=
  "llm.prompts." ++ toString i ++ ".content"

/-- The warning logged by the `except` clause of `_set_prompts`
(line 160): `"Failed to set prompts for openai span, error: %s" % str(ex)`. -/
def promptWarning (ex : Exc) : String :=
  "Failed to set prompts for openai span, error: " ++ ex.message

/-- The `for i, p in enumerate(prompt)` loop of `_set_prompts`
(lines 148-152), run under the surrounding `try`: each element sets one
indexed content attribute; the first failing `set_attribute` raises out of
the loop into the `except`, which logs a warning, so elements after the
failure set nothing. -/
def promptLoop (fail : String → Value → Option Exc) :
    List Value → Nat → List Event
  | [], _ => []
  | p :: rest, i =>
    match fail (promptKey i) p with
    | some ex => [.logWarning (promptWarning ex)]
    | none => .setAttr (promptKey i) p :: promptLoop fail rest (i + 1)

/-- `_set_prompts` (lines 143-160): return immediately when the span is not
recording or the prompt is falsy; otherwise set one indexed content
attribute per list element (or a single index-0 attribute for a non-list
prompt), catching any failure and logging a warning instead of raising.
It emits events and never raises (the `try`/`except` swallows the
exception). -/
def _set_prompts (ctx : TraceCtx) (prompt : Value) : List Event :=
  if !ctx.isRecording || !prompt.truthy then []
  else
    match prompt with
    | .list ps => promptLoop ctx.attrFail ps 0
    | p =>
      match ctx.attrFail (promptKey 0) p with
      | some ex => [.logWarning (promptWarning ex)]
      | none => [.setAttr (promptKey 0) p]

/-- Python `kwargs.get("input")`: `None` when the key is absent (`kwargs`
is a genuine dict, so this lookup never raises). -/
def kwargsInput (kwargs : List (String × Value)) : Value :=
  (lookup kwargs "input").getD .vnone

/-- `_handle_request` (lines 128-131): set request attributes (an external
call whose exception propagates), then, when prompt recording is enabled,
run `_set_prompts` on `kwargs.get("input")`. -/
def _handle_request (ctx : TraceCtx) (kwargs : List (String × Value)) :
    Except Exc Unit × List Event :=
  match ctx.reqAttrs with
  | (.error e, attrs) => (.error e, setAttrEvents attrs)
  | (.ok _, attrs) =>
    if ctx.shouldSendPrompts then
      (.ok (), setAttrEvents attrs ++ _set_prompts ctx (kwargsInput kwargs))
    else
      (.ok (), setAttrEvents attrs)

/-- `_handle_response` (lines 134-140): normalize the response when
`is_openai_v1()`, then set response attributes (an external call whose
exception propagates). -/
def _handle_response (ctx : TraceCtx) (response : Value) :
    Except Exc Unit × List Event :=
  let response_dict := if ctx.isV1 then ctx.modelAsDict response else response
  let result := ctx.respAttrs response_dict
  (result.1, setAttrEvents result.2)

/-- The span opened by both tracing wrappers: name `openai.embeddings`,
kind `client`, initial attribute `llm.request.type = "embedding"`. -/
def spanStartEvent : Event :=
  .spanStart "openai.embeddings" "client" [("llm.request.type", .str "embedding")]

/-- `embeddings_wrapper` (lines 93-107): suppression passthrough, else a
scoped span around request handling, the underlying call and response
handling; the `with` block ends the span on every exit path and lets
exceptions propagate. -/
def embeddings_wrapper (ctx : TraceCtx) (kwargs : List (String × Value))
    (wrapped : Except Exc Value) : Except Exc Value × List Event :=
  if ctx.suppressed then (wrapped, [])
  else
    match _handle_request ctx kwargs with
    | (.error e, reqEvts) => (.error e, spanStartEvent :: (reqEvts ++ [.spanEnd]))
    | (.ok _, reqEvts) =>
      match wrapped with
      | .error e => (.error e, spanStartEvent :: (reqEvts ++ [.spanEnd]))
      | .ok response =>
        match _handle_response ctx response with
        | (.error e, respEvts) =>
          (.error e, spanStartEvent :: (reqEvts ++ respEvts ++ [.spanEnd]))
        | (.ok _, respEvts) =>
          (.ok response, spanStartEvent :: (reqEvts ++ respEvts ++ [.spanEnd]))

/-- What `await`-ing the coroutine returned by `aembeddings_wrapper`
produces: a plain value, a raised exception, or — when the wrapper
`return`ed the underlying coroutine object without awaiting it — that
still-unawaited coroutine object itself. -/
inductive AResult where
  | unawaitedCoroutine : AResult
  | value (v : Value) : AResult
  | raised (e : Exc) : AResult
deriving Repr

/-- Awaiting the underlying async callable directly: its value or its
exception. -/
def awaitCoro (wrapped : Except Exc Value) : AResult :=
  match wrapped with
  | .ok v => .value v
  | .error e => .raised e

/-- `aembeddings_wrapper` (lines 110-125).  On the suppressed path
(line 113) the source executes `return wrapped(*args, **kwargs)` with no
`await` inside an `async def`, so awaiting the wrapper yields the
underlying coroutine object itself, still unawaited — the underlying call
does not run and no telemetry is emitted.  On the instrumented path the
underlying call is properly awaited (line 122) inside the scoped async
span. -/
def aembeddings_wrapper (ctx : TraceCtx) (kwargs : List (String × Value))
    (wrapped : Except Exc Value) : AResult × List Event :=
  if ctx.suppressed then (.unawaitedCoroutine, [])
  else
    match _handle_request ctx kwargs with
    | (.error e, reqEvts) => (.raised e, spanStartEvent :: (reqEvts ++ [.spanEnd]))
    | (.ok _, reqEvts) =>
      match wrapped with
      | .error e => (.raised e, spanStartEvent :: (reqEvts ++ [.spanEnd]))
      | .ok response =>
        match _handle_response ctx response with
        | (.error e, respEvts) =>
          (.raised e, spanStartEvent :: (reqEvts ++ respEvts ++ [.spanEnd]))
        | (.ok _, respEvts) =>
          (.value response, spanStartEvent :: (reqEvts ++ respEvts ++ [.spanEnd]))

/-- Discriminator: an add on the token counter. -/
def isTokenCounterAdd : Event → Bool
  | .counterAdd .tokenCounter _ _ => true
  | _ => false

/-- Discriminator: an add on the vector-size counter. -/
def isVectorSizeAdd : Event → Bool
  | .counterAdd .vectorSizeCounter _ _ => true
  | _ => false

/-- Discriminator: a histogram record. -/
def isHistRecord : Event → Bool
  | .histRecord _ _ _ => true
  | _ => false

/-- Discriminator: the span-end transition. -/
def isSpanEnd : Event → Bool
  | .spanEnd => true
  | _ => false

/-- Every histogram record in the event carries a non-negative value
(non-records pass vacuously). -/
def histNonnegB : Event → Bool
  | .histRecord _ v _ => decide (0 ≤ v)
  | _ => true

/-- The shared attribute set of the metrics-wrapper success path
(lines 67-70), as a function of the response dict entries:
`llm.response.model` (the model, or `None` when absent or falsy) and
`server.address`. -/
def successSharedAttributes (ctx : MetricsCtx) (es : List (String × Value)) :
    List (String × Value) :=
  [("llm.response.model", pyOr ((lookup es "model").getD .vnone) .vnone),
   ("server.address", .str ctx.baseUrl)]

/-- An attribute-setting collaborator that never fails. -/
def noFailAttr : String → Value → Option Exc := fun _ _ => none

/-- A tracing context with the Suppression Gate set and benign
collaborators. -/
def suppressedTraceCtx : TraceCtx :=
  { suppressed := true, isV1 := false, modelAsDict := id,
    shouldSendPrompts := false, isRecording := true,
    reqAttrs := (.ok (), []), respAttrs := fun _ => (.ok (), []),
    attrFail := noFailAttr }

/-- An unsuppressed metrics context in the non-v1 configuration, with the
allow-list the spec names for token types. -/
def baseMetricsCtx : MetricsCtx :=
  { suppressed := false, isV1 := false, modelAsDict := id,
    baseUrl := "https://api.openai.com/v1/",
    tokenTypes := ["prompt_tokens", "completion_tokens"] }

/-- The response of the end-to-end scenario in the spec: a model name, a
usage sub-mapping with five prompt tokens, one embedding of dimension 2. -/
def sampleResponse : Value :=
  .dict [("model", .str "text-embedding-ada-002"),
         ("usage", .dict [("prompt_tokens", .int 5)]),
         ("data", .list [.dict [("embedding", .list [.int 1, .int 2])]])]

/-- The telemetry the metrics wrapper emits for `sampleResponse` under
`baseMetricsCtx` with start time 0 and end time 2. -/
def sampleSuccessEvents : List Event :=
  [.counterAdd .tokenCounter (.int 5)
     [("llm.response.model", .str "text-embedding-ada-002"),
      ("server.address", .str "https://api.openai.com/v1/"),
      ("llm.usage.token_type", .str "prompt")],
   .counterAdd .vectorSizeCounter (.int 2)
     [("llm.response.model", .str "text-embedding-ada-002"),
      ("server.address", .str "https://api.openai.com/v1/")],
   .histRecord .durationHistogram 2
     [("llm.response.model", .str "text-embedding-ada-002"),
      ("server.address", .str "https://api.openai.com/v1/")]]

/-- The exception used to exercise a failing span `set_attribute`. -/
def badPromptExc : Exc := ⟨"ValueError", "bad prompt value"⟩

/-- An attribute collaborator that fails exactly on the second prompt
content key (`llm.prompts.1.content`). -/
def failOnSecondPrompt : String → Value → Option Exc := fun k _ =>
  if k == promptKey 1 then some badPromptExc else none

/-- An attribute collaborator that fails exactly when asked to set the
string value `"BAD"`. -/
def failOnBadStr : String → Value → Option Exc := fun _ v =>
  match v with
  | .str s => if s == "BAD" then some badPromptExc else none
  | _ => none

/-- An unsuppressed tracing context with prompt recording enabled, a
recording span, benign external attribute helpers, and a reliable span
collaborator. -/
def baseTraceCtx : TraceCtx :=
  { suppressed := false, isV1 := false, modelAsDict := id,
    shouldSendPrompts := true, isRecording := true,
    reqAttrs := (.ok (), []), respAttrs := fun _ => (.ok (), []),
    attrFail := noFailAttr }

/-- The indexed prompt-content attribute event for one enumerated element. -/
def promptEvent (is : Nat × String) : Event :=
  .setAttr (promptKey is.1) (.str is.2)

/-- Every event the usage loop emits is a token-counter add of the stated
shape. -/
theorem mem_tokenEvents (tt : List String) (sh us : List (String × Value))
    (ev : Event) (h : ev ∈ tokenEvents tt sh us) :
    ∃ nv : String × Value, ev = Event.counterAdd .tokenCounter nv.2
      (sh ++ [("llm.usage.token_type", .str (firstSegment nv.1))]) := by
  simp only [tokenEvents, List.mem_filterMap] at h
  obtain ⟨nv, _, hnv⟩ := h
  refine ⟨nv, ?_⟩
  split at hnv
  · exact (Option.some.inj hnv).symm
  · exact Option.noConfusion hnv

/-- Filtering the usage-loop events for token-counter adds keeps them all. -/
theorem tokenEvents_filter_token (tt : List String) (sh us : List (String × Value)) :
    (tokenEvents tt sh us).filter isTokenCounterAdd = tokenEvents tt sh us := by
  refine List.filter_eq_self.mpr fun ev h => ?_
  obtain ⟨nv, rfl⟩ := mem_tokenEvents tt sh us ev h
  rfl

/-- The usage loop emits no vector-size adds. -/
theorem tokenEvents_filter_vec (tt : List String) (sh us : List (String × Value)) :
    (tokenEvents tt sh us).filter isVectorSizeAdd = [] := by
  refine List.filter_eq_nil_iff.mpr fun ev h => ?_
  obtain ⟨nv, rfl⟩ := mem_tokenEvents tt sh us ev h
  simp [isVectorSizeAdd]

/-- The usage loop emits no histogram records. -/
theorem tokenEvents_filter_hist (tt : List String) (sh us : List (String × Value)) :
    (tokenEvents tt sh us).filter isHistRecord = [] := by
  refine List.filter_eq_nil_iff.mpr fun ev h => ?_
  obtain ⟨nv, rfl⟩ := mem_tokenEvents tt sh us ev h
  simp [isHistRecord]

/-- The usage loop trivially satisfies histogram non-negativity. -/
theorem tokenEvents_all_histNonneg (tt : List String) (sh us : List (String × Value)) :
    (tokenEvents tt sh us).all histNonnegB = true := by
  refine List.all_eq_true.mpr fun ev h => ?_
  obtain ⟨nv, rfl⟩ := mem_tokenEvents tt sh us ev h
  rfl

/-- The usage loop is the allow-list filter of the usage entries, mapped to
token-counter adds. -/
theorem tokenEvents_eq_filter_map (tt : List String) (sh us : List (String × Value)) :
    tokenEvents tt sh us
      = (us.filter fun kv => decide (kv.1 ∈ tt)).map fun kv =>
          Event.counterAdd .tokenCounter kv.2
            (sh ++ [("llm.usage.token_type", .str (firstSegment kv.1))]) := by
  induction us with
  | nil => rfl
  | cons nv us ih =>
    by_cases h : nv.1 ∈ tt <;>
      simp [tokenEvents, List.filterMap_cons, List.filter_cons, h] <;>
      simpa [tokenEvents] using ih

/-- C1: passthrough under suppression.  The metrics wrapper and the
synchronous tracing wrapper are exact passthroughs with zero telemetry
events when the Suppression Gate is set.  The asynchronous tracing
wrapper, however, executes `return wrapped(*args, **kwargs)` with no
`await` (line 113), so awaiting the wrapped call yields the still
unawaited underlying coroutine object — not the value awaiting the
underlying call directly yields — and the underlying call never runs:
the claim is right about the intent and the missing `await` is a code
bug, exhibited here at a concrete input. -/
theorem C1_passthrough_under_suppression :
    (∀ (ctx : MetricsCtx) (sc : Except Exc Int) (ec : Int) (w : Except Exc Value),
      embeddings_metrics_wrapper { ctx with suppressed := true } sc ec w = (w, []))
    ∧ (∀ (ctx : TraceCtx) (kwargs : List (String × Value)) (w : Except Exc Value),
      embeddings_wrapper { ctx with suppressed := true } kwargs w = (w, []))
    ∧ (∀ (ctx : TraceCtx) (kwargs : List (String × Value)) (w : Except Exc Value),
      aembeddings_wrapper { ctx with suppressed := true } kwargs w
        = (.unawaitedCoroutine, []))
    ∧ aembeddings_wrapper suppressedTraceCtx [] (.ok (.str "resp"))
        = (.unawaitedCoroutine, [])
    ∧ awaitCoro (.ok (.str "resp")) = .value (.str "resp")
    ∧ AResult.unawaitedCoroutine ≠ AResult.value (.str "resp") :=
  ⟨fun _ _ _ _ => rfl, fun _ _ _ => rfl, fun _ _ _ => rfl, rfl, rfl,
   fun h => nomatch h⟩

/-- C2: exception transparency of the metrics wrapper.  When the underlying
call raises `e`, the wrapper re-raises exactly `e` (same class name, same
message, as an `Exc` value), and by the time it does so the error-path
telemetry — both counter adds and the conditional histogram record — has
been emitted in full; under suppression the same `e` propagates with no
telemetry. -/
theorem C2_exception_transparency :
    ∀ (ctx : MetricsCtx) (sc : Except Exc Int) (t0 ec : Int) (e : Exc),
      embeddings_metrics_wrapper { ctx with suppressed := true } sc ec (.error e)
          = (.error e, [])
      ∧ embeddings_metrics_wrapper { ctx with suppressed := false } (.ok t0) ec (.error e)
          = (.error e,
             [.counterAdd .tokenCounter (.int 1) (errorAttributes ctx e),
              .counterAdd .vectorSizeCounter (.int 1) (errorAttributes ctx e)]
               ++ if ec - t0 > 0 then
                    [.histRecord .durationHistogram (ec - t0) (errorAttributes ctx e)]
                  else []) :=
  fun _ _ _ _ _ => ⟨rfl, rfl⟩

/-- C10: the implicit empty-prompt guard.  When the span is not recording,
or the prompt is falsy (`None` from an absent `input` key, the empty
string, the empty list), `_set_prompts` sets no attribute, logs nothing and
returns normally (its event list is empty), and `kwargs.get("input")` on
kwargs without the key is `None`. -/
theorem C10_empty_prompt_guard :
    ∀ (ctx : TraceCtx) (p : Value),
      _set_prompts { ctx with isRecording := false } p = []
      ∧ _set_prompts ctx .vnone = []
      ∧ _set_prompts ctx (.str "") = []
      ∧ _set_prompts ctx (.list []) = []
      ∧ kwargsInput [] = .vnone
      ∧ kwargsInput [("model", .str "text-embedding-ada-002")] = .vnone := by
  intro ctx p
  refine ⟨rfl, ?_, ?_, ?_, rfl, rfl⟩ <;>
    cases h : ctx.isRecording <;>
      simp [_set_prompts, Value.truthy, h, show "".isEmpty = true from rfl]

/-- When the success path of the metrics wrapper completes without raising,
the value it returns is the original response. -/
theorem metricsSuccess_fst_ok (ctx : MetricsCtx) (resp : Value) (d : Int)
    (r : Value) (evts : List Event)
    (h : metricsSuccess ctx resp d = (.ok r, evts)) : r = resp := by
  simp only [metricsSuccess] at h
  repeat' split at h
  all_goals simp_all

/-- When the synchronous tracing wrapper returns successfully around a
successful underlying call, it returns the original response. -/
theorem embeddings_wrapper_fst_ok (ctx : TraceCtx) (kwargs : List (String × Value))
    (resp r : Value) (evts : List Event)
    (h : embeddings_wrapper ctx kwargs (.ok resp) = (.ok r, evts)) : r = resp := by
  simp only [embeddings_wrapper] at h
  repeat' split at h
  all_goals simp_all

/-- When the asynchronous tracing wrapper produces a value around a
successful underlying call, it is the original response. -/
theorem aembeddings_wrapper_fst_ok (ctx : TraceCtx) (kwargs : List (String × Value))
    (resp r : Value) (evts : List Event)
    (h : aembeddings_wrapper ctx kwargs (.ok resp) = (.value r, evts)) : r = resp := by
  simp only [aembeddings_wrapper] at h
  repeat' split at h
  all_goals simp_all

/-- C3, counterexample: telemetry code can be the caller-visible failure.
With the version flag off, a successful underlying call returning a
non-dict response makes the success-path extraction (line 68,
`response_dict.get("model")`) raise `AttributeError` out of the wrapper:
the underlying call succeeded, yet the wrapped call raises — refuting the
claim that the wrapper returns the result no matter what the telemetry
steps do. -/
theorem C3_counterexample :
    embeddings_metrics_wrapper baseMetricsCtx (.ok 0) 2 (.ok (.str "ok-response"))
        = (.error attributeError, [])
      ∧ (embeddings_metrics_wrapper baseMetricsCtx (.ok 0) 2 (.ok (.str "ok-response"))).1
        ≠ .ok (.str "ok-response") :=
  ⟨rfl, fun h => nomatch h⟩

/-- C3, amended: the wrappers never substitute a different value — any
successful wrapped result is exactly the underlying result — and
failures are contained only where the code catches them: when the external
request/response attribute helpers succeed, the tracing wrappers return
the underlying result for every behavior of the span attribute
collaborator (prompt-setting failures never propagate); but a telemetry
failure elsewhere (normalization, extraction, instrument calls) does
propagate, as the counterexample shows. -/
theorem C3_telemetry_failure_containment :
    (∀ (ctx : MetricsCtx) (sc : Except Exc Int) (ec : Int) (resp r : Value)
        (evts : List Event),
        embeddings_metrics_wrapper ctx sc ec (.ok resp) = (.ok r, evts) → r = resp)
    ∧ (∀ (ctx : TraceCtx) (kwargs : List (String × Value)) (resp r : Value)
        (evts : List Event),
        embeddings_wrapper ctx kwargs (.ok resp) = (.ok r, evts) → r = resp)
    ∧ (∀ (ctx : TraceCtx) (kwargs : List (String × Value)) (resp r : Value)
        (evts : List Event),
        aembeddings_wrapper ctx kwargs (.ok resp) = (.value r, evts) → r = resp)
    ∧ (∀ (ctx : TraceCtx) (kwargs : List (String × Value)) (resp : Value)
        (ras : List (String × Value)) (rasp : Value → List (String × Value)),
        (embeddings_wrapper
            { ctx with suppressed := false, reqAttrs := (.ok (), ras),
                       respAttrs := fun v => (.ok (), rasp v) } kwargs (.ok resp)).1
          = .ok resp)
    ∧ (∀ (ctx : TraceCtx) (kwargs : List (String × Value)) (resp : Value)
        (ras : List (String × Value)) (rasp : Value → List (String × Value)),
        (aembeddings_wrapper
            { ctx with suppressed := false, reqAttrs := (.ok (), ras),
                       respAttrs := fun v => (.ok (), rasp v) } kwargs (.ok resp)).1
          = .value resp) := by
  refine ⟨?_, ?_, ?_, ?_, ?_⟩
  · intro ctx sc ec resp r evts h
    unfold embeddings_metrics_wrapper at h
    split at h
    · simp_all
    · split at h
      · simp_all [metricsError]
      · exact metricsSuccess_fst_ok _ _ _ _ _ h
  · exact fun ctx kwargs resp r evts h => embeddings_wrapper_fst_ok ctx kwargs resp r evts h
  · exact fun ctx kwargs resp r evts h => aembeddings_wrapper_fst_ok ctx kwargs resp r evts h
  · intro ctx kwargs resp ras rasp
    cases hsp : ctx.shouldSendPrompts <;>
      simp [embeddings_wrapper, _handle_request, _handle_response, hsp]
  · intro ctx kwargs resp ras rasp
    cases hsp : ctx.shouldSendPrompts <;>
      simp [aembeddings_wrapper, _handle_request, _handle_response, hsp]

/-- C3 witness: at the end-to-end sample input the hypothesis of the
amended claim holds by computation, and the conclusion follows by applying
the theorem. -/
theorem C3_telemetry_failure_containment_witness :
    embeddings_metrics_wrapper baseMetricsCtx (.ok 0) 2 (.ok sampleResponse)
        = (.ok sampleResponse, sampleSuccessEvents)
      ∧ sampleResponse = sampleResponse :=
  ⟨rfl, C3_telemetry_failure_containment.1 baseMetricsCtx (.ok 0) 2
      sampleResponse sampleResponse sampleSuccessEvents rfl⟩

/-- With suppression off and a recorded start time, the metrics wrapper on
a successful call is exactly its success path with duration
`endClock - startTime`. -/
theorem metricsWrapper_success_reduce (ctx : MetricsCtx) (t0 ec : Int) (resp : Value) :
    embeddings_metrics_wrapper { ctx with suppressed := false, isV1 := false }
        (.ok t0) ec (.ok resp)
      = metricsSuccess { ctx with suppressed := false, isV1 := false } resp (ec - t0) := rfl

/-- The token-counter adds of the success path are exactly the usage-loop
events, whatever the vector-size step does. -/
theorem metricsSuccess_token_filter (ctx : MetricsCtx) (hv : ctx.isV1 = false)
    (es us : List (String × Value)) (d : Int)
    (hu : usageEntries ((lookup es "usage").getD .vnone) = .ok us) :
    (metricsSuccess ctx (.dict es) d).2.filter isTokenCounterAdd
      = tokenEvents ctx.tokenTypes (successSharedAttributes ctx es) us := by
  simp only [metricsSuccess, hv, Bool.false_eq_true, if_false, Value.get, hu]
  repeat' split
  all_goals
    simp [successSharedAttributes, List.filter_append, tokenEvents_filter_token,
      isTokenCounterAdd]

/-- When the whole data path succeeds, the success path returns the
response and emits usage-loop adds, one vector-size add, one duration
record. -/
theorem metricsSuccess_eq_of (ctx : MetricsCtx) (hv : ctx.isV1 = false)
    (es us : List (String × Value)) (d : Int) (first emb : Value) (n : Int)
    (hu : usageEntries ((lookup es "usage").getD .vnone) = .ok us)
    (hfi : pyIndex (pyOr ((lookup es "data").getD .vnone) (.list [.dict []])) 0 = .ok first)
    (hem : first.getDefault "embedding" (.list []) = .ok emb)
    (hln : pyLen emb = .ok n) :
    metricsSuccess ctx (.dict es) d
      = (.ok (.dict es),
         tokenEvents ctx.tokenTypes (successSharedAttributes ctx es) us
           ++ [.counterAdd .vectorSizeCounter (.int n) (successSharedAttributes ctx es),
               .histRecord .durationHistogram d (successSharedAttributes ctx es)]) := by
  simp only [metricsSuccess, hv, Bool.false_eq_true, if_false, Value.get, hu, hfi, hem,
    hln, successSharedAttributes]

/-- C4: token accounting on success.  With suppression off and a dict
response, when the usage sub-mapping is present the token counter receives
exactly one add per usage entry whose key is in the allow-list, with the
entry's count as amount and `llm.usage.token_type` set to the first
underscore-separated segment of the key; entries outside the allow-list
produce no add; an absent (or `None`) usage sub-mapping produces no
token-counter adds at all. -/
theorem C4_token_accounting :
    ∀ (ctx : MetricsCtx) (t0 ec : Int) (es us : List (String × Value)),
      (lookup es "usage" = some (.dict us) →
        (embeddings_metrics_wrapper { ctx with suppressed := false, isV1 := false }
            (.ok t0) ec (.ok (.dict es))).2.filter isTokenCounterAdd
          = (us.filter fun kv => decide (kv.1 ∈ ctx.tokenTypes)).map fun kv =>
              Event.counterAdd .tokenCounter kv.2
                (successSharedAttributes ctx es
                  ++ [("llm.usage.token_type", .str (firstSegment kv.1))]))
      ∧ (lookup es "usage" = none →
        (embeddings_metrics_wrapper { ctx with suppressed := false, isV1 := false }
            (.ok t0) ec (.ok (.dict es))).2.filter isTokenCounterAdd = [])
      ∧ (lookup es "usage" = some .vnone →
        (embeddings_metrics_wrapper { ctx with suppressed := false, isV1 := false }
            (.ok t0) ec (.ok (.dict es))).2.filter isTokenCounterAdd = []) := by
  intro ctx t0 ec es us
  refine ⟨fun hu => ?_, fun hu => ?_, fun hu => ?_⟩
  · have h1 := metricsSuccess_token_filter { ctx with suppressed := false, isV1 := false }
      rfl es us (ec - t0) (by rw [hu]; rfl)
    rw [tokenEvents_eq_filter_map] at h1
    exact h1
  · exact metricsSuccess_token_filter { ctx with suppressed := false, isV1 := false }
      rfl es [] (ec - t0) (by rw [hu]; rfl)
  · exact metricsSuccess_token_filter { ctx with suppressed := false, isV1 := false }
      rfl es [] (ec - t0) (by rw [hu]; rfl)

/-- C4 witness: a concrete response whose usage holds one allow-listed key
and one unrecognized key (`total_tokens` is outside the allow-list and is
skipped). -/
theorem C4_token_accounting_witness :
    lookup [("usage", Value.dict [("prompt_tokens", .int 5), ("total_tokens", .int 9)])]
        "usage" = some (.dict [("prompt_tokens", .int 5), ("total_tokens", .int 9)])
    ∧ (embeddings_metrics_wrapper { baseMetricsCtx with suppressed := false, isV1 := false }
        (.ok 0) 2
        (.ok (.dict [("usage",
          Value.dict [("prompt_tokens", .int 5), ("total_tokens", .int 9)])]))).2.filter
          isTokenCounterAdd
      = ([("prompt_tokens", Value.int 5), ("total_tokens", Value.int 9)].filter
          fun kv => decide (kv.1 ∈ baseMetricsCtx.tokenTypes)).map fun kv =>
          Event.counterAdd .tokenCounter kv.2
            (successSharedAttributes baseMetricsCtx
                [("usage", Value.dict [("prompt_tokens", .int 5), ("total_tokens", .int 9)])]
              ++ [("llm.usage.token_type", .str (firstSegment kv.1))]) :=
  ⟨rfl,
   (C4_token_accounting baseMetricsCtx 0 2
      [("usage", Value.dict [("prompt_tokens", .int 5), ("total_tokens", .int 9)])]
      [("prompt_tokens", .int 5), ("total_tokens", .int 9)]).1 rfl⟩

/-- C5: vector-size accounting on success.  With suppression off, a dict
response and a well-formed usage step, the vector-size counter receives
exactly one add tagged with the shared attributes: its amount is the
length of the embedding vector of the first element of the data list; an
absent data list, an empty data list, or a first element without an
embedding field all yield amount 0, and the wrapper still returns the
response without error. -/
theorem C5_vector_size_accounting :
    ∀ (ctx : MetricsCtx) (t0 ec : Int) (es us fs : List (String × Value))
      (rest emb : List Value),
      usageEntries ((lookup es "usage").getD .vnone) = .ok us →
      ((lookup es "data" = some (.list (.dict fs :: rest)) →
          lookup fs "embedding" = some (.list emb) →
          (embeddings_metrics_wrapper { ctx with suppressed := false, isV1 := false }
              (.ok t0) ec (.ok (.dict es))).2.filter isVectorSizeAdd
            = [.counterAdd .vectorSizeCounter (.int emb.length)
                 (successSharedAttributes ctx es)]
          ∧ (embeddings_metrics_wrapper { ctx with suppressed := false, isV1 := false }
              (.ok t0) ec (.ok (.dict es))).1 = .ok (.dict es))
      ∧ (lookup es "data" = none →
          (embeddings_metrics_wrapper { ctx with suppressed := false, isV1 := false }
              (.ok t0) ec (.ok (.dict es))).2.filter isVectorSizeAdd
            = [.counterAdd .vectorSizeCounter (.int 0) (successSharedAttributes ctx es)]
          ∧ (embeddings_metrics_wrapper { ctx with suppressed := false, isV1 := false }
              (.ok t0) ec (.ok (.dict es))).1 = .ok (.dict es))
      ∧ (lookup es "data" = some (.list []) →
          (embeddings_metrics_wrapper { ctx with suppressed := false, isV1 := false }
              (.ok t0) ec (.ok (.dict es))).2.filter isVectorSizeAdd
            = [.counterAdd .vectorSizeCounter (.int 0) (successSharedAttributes ctx es)]
          ∧ (embeddings_metrics_wrapper { ctx with suppressed := false, isV1 := false }
              (.ok t0) ec (.ok (.dict es))).1 = .ok (.dict es))
      ∧ (lookup es "data" = some (.list (.dict fs :: rest)) →
          lookup fs "embedding" = none →
          (embeddings_metrics_wrapper { ctx with suppressed := false, isV1 := false }
              (.ok t0) ec (.ok (.dict es))).2.filter isVectorSizeAdd
            = [.counterAdd .vectorSizeCounter (.int 0) (successSharedAttributes ctx es)]
          ∧ (embeddings_metrics_wrapper { ctx with suppressed := false, isV1 := false }
              (.ok t0) ec (.ok (.dict es))).1 = .ok (.dict es))) := by
  intro ctx t0 ec es us fs rest emb hu
  have hu' : usageEntries ((lookup es "usage").getD .vnone) = .ok us := hu
  refine ⟨fun hd he => ?_, fun hd => ?_, fun hd => ?_, fun hd he => ?_⟩ <;>
    rw [metricsWrapper_success_reduce]
  · have h1 := metricsSuccess_eq_of { ctx with suppressed := false, isV1 := false }
      rfl es us (ec - t0) (.dict fs) (.list emb) emb.length hu'
      (by rw [hd]; simp [pyOr, Value.truthy, pyIndex])
      (by simp [Value.getDefault, he]) (by simp [pyLen])
    rw [h1]
    simp [List.filter_append, tokenEvents_filter_vec, isVectorSizeAdd, isHistRecord,
      successSharedAttributes]
  · have h1 := metricsSuccess_eq_of { ctx with suppressed := false, isV1 := false }
      rfl es us (ec - t0) (.dict []) (.list []) 0 hu' (by rw [hd]; rfl) rfl rfl
    rw [h1]
    simp [List.filter_append, tokenEvents_filter_vec, isVectorSizeAdd,
      successSharedAttributes]
  · have h1 := metricsSuccess_eq_of { ctx with suppressed := false, isV1 := false }
      rfl es us (ec - t0) (.dict []) (.list []) 0 hu' (by rw [hd]; rfl) rfl rfl
    rw [h1]
    simp [List.filter_append, tokenEvents_filter_vec, isVectorSizeAdd,
      successSharedAttributes]
  · have h1 := metricsSuccess_eq_of { ctx with suppressed := false, isV1 := false }
      rfl es us (ec - t0) (.dict fs) (.list []) 0 hu'
      (by rw [hd]; simp [pyOr, Value.truthy, pyIndex])
      (by simp [Value.getDefault, he]) rfl
    rw [h1]
    simp [List.filter_append, tokenEvents_filter_vec, isVectorSizeAdd,
      successSharedAttributes]

/-- C5 witness: the end-to-end sample response, whose single embedding has
dimension 2. -/
theorem C5_vector_size_accounting_witness :
    usageEntries ((lookup [("model", Value.str "text-embedding-ada-002"),
        ("usage", Value.dict [("prompt_tokens", .int 5)]),
        ("data", Value.list [.dict [("embedding", .list [.int 1, .int 2])]])] "usage").getD
          .vnone)
      = .ok [("prompt_tokens", .int 5)]
    ∧ ((embeddings_metrics_wrapper { baseMetricsCtx with suppressed := false, isV1 := false }
          (.ok 0) 2
          (.ok (.dict [("model", Value.str "text-embedding-ada-002"),
            ("usage", Value.dict [("prompt_tokens", .int 5)]),
            ("data", Value.list [.dict [("embedding", .list [.int 1, .int 2])]])]))).2.filter
            isVectorSizeAdd
        = [.counterAdd .vectorSizeCounter (.int 2)
            (successSharedAttributes baseMetricsCtx
              [("model", Value.str "text-embedding-ada-002"),
               ("usage", Value.dict [("prompt_tokens", .int 5)]),
               ("data", Value.list [.dict [("embedding", .list [.int 1, .int 2])]])])]) :=
  ⟨rfl,
   ((C5_vector_size_accounting baseMetricsCtx 0 2
      [("model", Value.str "text-embedding-ada-002"),
       ("usage", Value.dict [("prompt_tokens", .int 5)]),
       ("data", Value.list [.dict [("embedding", .list [.int 1, .int 2])]])]
      [("prompt_tokens", .int 5)]
      [("embedding", .list [.int 1, .int 2])] [] [.int 1, .int 2] rfl).1 rfl rfl).1⟩

/-- C6: exception-path measurements.  With suppression off and a recorded
start time, when the underlying call raises: the token counter and the
vector-size counter each receive exactly one add of amount 1, both tagged
with exactly `{error.type, server.address}`, and the duration histogram
receives a record (with the same attributes and the computed duration) if
and only if that duration is strictly positive. -/
theorem C6_error_path_measurements :
    ∀ (ctx : MetricsCtx) (t0 ec : Int) (e : Exc),
      (embeddings_metrics_wrapper { ctx with suppressed := false } (.ok t0) ec
          (.error e)).2.filter isTokenCounterAdd
        = [.counterAdd .tokenCounter (.int 1) (errorAttributes ctx e)]
      ∧ (embeddings_metrics_wrapper { ctx with suppressed := false } (.ok t0) ec
          (.error e)).2.filter isVectorSizeAdd
        = [.counterAdd .vectorSizeCounter (.int 1) (errorAttributes ctx e)]
      ∧ (embeddings_metrics_wrapper { ctx with suppressed := false } (.ok t0) ec
          (.error e)).2.filter isHistRecord
        = (if ec - t0 > 0 then
            [.histRecord .durationHistogram (ec - t0) (errorAttributes ctx e)]
          else []) := by
  intro ctx t0 ec e
  by_cases h : ec - t0 > 0 <;>
    simp [embeddings_metrics_wrapper, metricsError, errorAttributes, h,
      isTokenCounterAdd, isVectorSizeAdd, isHistRecord]

/-- C7: duration safety and non-negativity.  When the clock does not run
backwards between the two reads, every histogram record the metrics
wrapper emits (on success or failure) carries a value that is at least 0;
and when the start-time read itself fails before the call, the wrapper
treats the duration as zero, emits the two error adds with no histogram
record at all, and re-raises that failure instead of raising a reference
error for the missing start time. -/
theorem C7_duration_safety :
    ∀ (ctx : MetricsCtx) (t0 ec : Int) (w : Except Exc Value) (e0 : Exc),
      (t0 ≤ ec →
        ((embeddings_metrics_wrapper { ctx with suppressed := false } (.ok t0) ec
            w).2.all histNonnegB) = true)
      ∧ embeddings_metrics_wrapper { ctx with suppressed := false } (.error e0) ec w
          = (.error e0,
             [.counterAdd .tokenCounter (.int 1) (errorAttributes ctx e0),
              .counterAdd .vectorSizeCounter (.int 1) (errorAttributes ctx e0)]) := by
  intro ctx t0 ec w e0
  constructor
  · intro hle
    have hnn : (0 : Int) ≤ ec - t0 := by omega
    cases w with
    | error e =>
      by_cases h : ec - t0 > 0 <;>
        simp [embeddings_metrics_wrapper, metricsError, h, histNonnegB, hnn]
    | ok resp =>
      rw [show embeddings_metrics_wrapper { ctx with suppressed := false } (.ok t0) ec
            (.ok resp)
          = metricsSuccess { ctx with suppressed := false } resp (ec - t0) from rfl]
      simp only [metricsSuccess]
      repeat' split
      all_goals
        simp [List.all_append, tokenEvents_all_histNonneg, histNonnegB, hnn]
  · rfl

/-- C7 witness: with start time 0 and end time 3 the clock hypothesis
holds and every record of the success-path telemetry is non-negative. -/
theorem C7_duration_safety_witness :
    (0 : Int) ≤ 3
    ∧ ((embeddings_metrics_wrapper { baseMetricsCtx with suppressed := false } (.ok 0) 3
        (.ok sampleResponse)).2.all histNonnegB) = true :=
  ⟨by decide,
   (C7_duration_safety baseMetricsCtx 0 3 (.ok sampleResponse) attributeError).1
     (by decide)⟩

/-- Attribute-setting events are never the span-end transition. -/
theorem countP_setAttrEvents (attrs : List (String × Value)) :
    (setAttrEvents attrs).countP isSpanEnd = 0 := by
  induction attrs with
  | nil => rfl
  | cons kv attrs ih =>
    simp only [setAttrEvents, List.map_cons, List.countP_cons] at *
    simp [isSpanEnd, ih]

/-- The prompt loop never ends the span. -/
theorem countP_promptLoop (fail : String → Value → Option Exc) (ps : List Value)
    (i : Nat) : (promptLoop fail ps i).countP isSpanEnd = 0 := by
  induction ps generalizing i with
  | nil => rfl
  | cons p ps ih =>
    simp only [promptLoop]
    split <;> simp [List.countP_cons, isSpanEnd, ih]

/-- `_set_prompts` never ends the span. -/
theorem countP_set_prompts (ctx : TraceCtx) (p : Value) :
    (_set_prompts ctx p).countP isSpanEnd = 0 := by
  simp only [_set_prompts]
  split
  · rfl
  · split
    · exact countP_promptLoop _ _ _
    · split <;> simp [List.countP_cons, isSpanEnd]

/-- `_handle_request` never ends the span. -/
theorem countP_handle_request (ctx : TraceCtx) (kwargs : List (String × Value)) :
    ((_handle_request ctx kwargs).2).countP isSpanEnd = 0 := by
  simp only [_handle_request]
  split
  · exact countP_setAttrEvents _
  · split
    · simp [List.countP_append, countP_setAttrEvents, countP_set_prompts]
    · exact countP_setAttrEvents _

/-- `_handle_response` never ends the span. -/
theorem countP_handle_response (ctx : TraceCtx) (resp : Value) :
    ((_handle_response ctx resp).2).countP isSpanEnd = 0 := by
  simp only [_handle_response]
  exact countP_setAttrEvents _

/-- When the external request-attribute helper succeeds, `_handle_request`
succeeds (prompt setting cannot fail it). -/
theorem _handle_request_fst (ctx : TraceCtx) (kwargs : List (String × Value))
    (ras : List (String × Value)) (h : ctx.reqAttrs = (.ok (), ras)) :
    (_handle_request ctx kwargs).1 = .ok () := by
  simp only [_handle_request, h]
  split <;> rfl

/-- C8: span lifecycle.  With suppression off, both tracing wrappers end
the span exactly once on every exit path — whatever the request helper,
the underlying call and the response helper do; and when the request
helper succeeds and the underlying call raises, the wrapper propagates
exactly that exception, the span is ended, and the events are only the
span opening, the request-phase attribute events and the span end — no
response attribute is set. -/
theorem C8_span_lifecycle :
    ∀ (ctx : TraceCtx) (kwargs : List (String × Value)) (w : Except Exc Value)
      (ras : List (String × Value)) (e : Exc),
      ((embeddings_wrapper { ctx with suppressed := false } kwargs w).2.countP
          isSpanEnd = 1)
      ∧ ((aembeddings_wrapper { ctx with suppressed := false } kwargs w).2.countP
          isSpanEnd = 1)
      ∧ (embeddings_wrapper { ctx with suppressed := false, reqAttrs := (.ok (), ras) }
            kwargs (.error e)
          = (.error e, spanStartEvent ::
              ((_handle_request { ctx with suppressed := false, reqAttrs := (.ok (), ras) }
                  kwargs).2 ++ [.spanEnd])))
      ∧ (aembeddings_wrapper { ctx with suppressed := false, reqAttrs := (.ok (), ras) }
            kwargs (.error e)
          = (.raised e, spanStartEvent ::
              ((_handle_request { ctx with suppressed := false, reqAttrs := (.ok (), ras) }
                  kwargs).2 ++ [.spanEnd]))) := by
  intro ctx kwargs w ras e
  refine ⟨?_, ?_, ?_, ?_⟩
  · rcases hreq : _handle_request { ctx with suppressed := false } kwargs with ⟨ro, revts⟩
    have hr0 : revts.countP isSpanEnd = 0 := by
      have h0 := countP_handle_request { ctx with suppressed := false } kwargs
      rw [hreq] at h0; exact h0
    cases ro with
    | error e1 =>
      simp [embeddings_wrapper, hreq, List.countP_cons, List.countP_append, isSpanEnd, spanStartEvent, hr0]
    | ok u =>
      cases w with
      | error e1 =>
        simp [embeddings_wrapper, hreq, List.countP_cons, List.countP_append, isSpanEnd, spanStartEvent, hr0]
      | ok resp =>
        rcases hresp : _handle_response { ctx with suppressed := false } resp with ⟨po, pevts⟩
        have hp0 : pevts.countP isSpanEnd = 0 := by
          have h0 := countP_handle_response { ctx with suppressed := false } resp
          rw [hresp] at h0; exact h0
        cases po <;>
          simp [embeddings_wrapper, hreq, hresp, List.countP_cons, List.countP_append,
            isSpanEnd, spanStartEvent, hr0, hp0]
  · rcases hreq : _handle_request { ctx with suppressed := false } kwargs with ⟨ro, revts⟩
    have hr0 : revts.countP isSpanEnd = 0 := by
      have h0 := countP_handle_request { ctx with suppressed := false } kwargs
      rw [hreq] at h0; exact h0
    cases ro with
    | error e1 =>
      simp [aembeddings_wrapper, hreq, List.countP_cons, List.countP_append, isSpanEnd, spanStartEvent, hr0]
    | ok u =>
      cases w with
      | error e1 =>
        simp [aembeddings_wrapper, hreq, List.countP_cons, List.countP_append, isSpanEnd, spanStartEvent, hr0]
      | ok resp =>
        rcases hresp : _handle_response { ctx with suppressed := false } resp with ⟨po, pevts⟩
        have hp0 : pevts.countP isSpanEnd = 0 := by
          have h0 := countP_handle_response { ctx with suppressed := false } resp
          rw [hresp] at h0; exact h0
        cases po <;>
          simp [aembeddings_wrapper, hreq, hresp, List.countP_cons, List.countP_append,
            isSpanEnd, spanStartEvent, hr0, hp0]
  · rcases hreq : _handle_request
        { ctx with suppressed := false, reqAttrs := (.ok (), ras) } kwargs with ⟨ro, revts⟩
    have hro : ro = .ok () := by
      have h0 := _handle_request_fst
        { ctx with suppressed := false, reqAttrs := (.ok (), ras) } kwargs ras rfl
      rw [hreq] at h0; exact h0
    subst hro
    simp [embeddings_wrapper, hreq]
  · rcases hreq : _handle_request
        { ctx with suppressed := false, reqAttrs := (.ok (), ras) } kwargs with ⟨ro, revts⟩
    have hro : ro = .ok () := by
      have h0 := _handle_request_fst
        { ctx with suppressed := false, reqAttrs := (.ok (), ras) } kwargs ras rfl
      rw [hreq] at h0; exact h0
    subst hro
    simp [aembeddings_wrapper, hreq]

/-- With a reliable span collaborator the prompt loop sets one indexed
content attribute per element, in order. -/
theorem promptLoop_noFail (ss : List String) (i : Nat) :
    promptLoop noFailAttr (ss.map .str) i = (ss.enumFrom i).map promptEvent := by
  induction ss generalizing i with
  | nil => rfl
  | cons s ss ih =>
    simp [promptLoop, noFailAttr, List.enumFrom, promptEvent, ih]

/-- When the first failing element is reached, the prompt loop has set the
attributes of everything before it, logs one warning, and sets nothing
further. -/
theorem promptLoop_failOnBad (ss1 ss2 : List String) (i : Nat) (h : "BAD" ∉ ss1) :
    promptLoop failOnBadStr ((ss1 ++ "BAD" :: ss2).map .str) i
      = (ss1.enumFrom i).map promptEvent ++ [.logWarning (promptWarning badPromptExc)] := by
  induction ss1 generalizing i with
  | nil => simp [promptLoop, failOnBadStr]
  | cons s ss1 ih =>
    have hs : s ≠ "BAD" := fun hh => h (hh ▸ List.mem_cons_self _ _)
    have h' : "BAD" ∉ ss1 := fun hh => h (List.mem_cons_of_mem _ hh)
    have ih' := ih (i + 1) h'
    simp only [List.map_append, List.map_cons] at ih'
    simp [promptLoop, failOnBadStr, List.enumFrom, promptEvent, hs, beq_iff_eq, ih']

/-- C9, counterexample: a failing `set_attribute` mid-list does not undo
the already-set prompt attributes.  With a collaborator that fails exactly
on `llm.prompts.1.content`, the input `["a", "b"]` yields the attribute
for element 0 and then the warning: an internal failure occurred during
the step, yet a prompt attribute was set — refuting the claim that no
prompt attributes are yielded on any internal failure. -/
theorem C9_counterexample :
    _set_prompts { baseTraceCtx with attrFail := failOnSecondPrompt }
        (.list [.str "a", .str "b"])
      = [.setAttr (promptKey 0) (.str "a"), .logWarning (promptWarning badPromptExc)]
    ∧ Event.setAttr (promptKey 0) (.str "a")
        ∈ _set_prompts { baseTraceCtx with attrFail := failOnSecondPrompt }
            (.list [.str "a", .str "b"]) :=
  ⟨rfl, List.mem_cons_self _ _⟩

/-- C9, amended: when prompt recording is enabled and the span is
recording, a list of strings sets one `llm.prompts.<i>.content` attribute
per element in order (given the span collaborator accepts them), a single
non-empty string sets only `llm.prompts.0.content`, and on an internal
failure a warning is logged and no exception is raised, but only the
attributes from the failing element onward are not set — attributes set
before the failure remain. -/
theorem C9_prompt_attribute_extraction :
    (∀ (ctx : TraceCtx) (ss : List String),
      _set_prompts { ctx with isRecording := true, attrFail := noFailAttr }
          (.list (ss.map .str))
        = ss.enum.map promptEvent)
    ∧ (∀ (ctx : TraceCtx) (s : String), s.isEmpty = false →
      _set_prompts { ctx with isRecording := true, attrFail := noFailAttr } (.str s)
        = [.setAttr (promptKey 0) (.str s)])
    ∧ (∀ (ctx : TraceCtx) (ss1 ss2 : List String), "BAD" ∉ ss1 →
      _set_prompts { ctx with isRecording := true, attrFail := failOnBadStr }
          (.list ((ss1 ++ "BAD" :: ss2).map .str))
        = ss1.enum.map promptEvent ++ [.logWarning (promptWarning badPromptExc)]) := by
  refine ⟨?_, ?_, ?_⟩
  · intro ctx ss
    cases ss with
    | nil => rfl
    | cons s ss => exact promptLoop_noFail (s :: ss) 0
  · intro ctx s hs
    simp [_set_prompts, Value.truthy, hs, noFailAttr]
  · intro ctx ss1 ss2 h
    cases ss1 with
    | nil => exact promptLoop_failOnBad [] ss2 0 h
    | cons s ss1 => exact promptLoop_failOnBad (s :: ss1) ss2 0 h

/-- C9 witness: a two-element list that fails on its second element keeps
the first attribute and logs the warning; the hypothesis (the first part
holds no failing element) is discharged by computation. -/
theorem C9_prompt_attribute_extraction_witness :
    ("BAD" ∉ ["a"])
    ∧ _set_prompts { baseTraceCtx with isRecording := true, attrFail := failOnBadStr }
          (.list ((["a"] ++ "BAD" :: ["c"]).map .str))
        = ["a"].enum.map promptEvent ++ [.logWarning (promptWarning badPromptExc)] :=
  ⟨by decide,
   (C9_prompt_attribute_extraction.2.2 baseTraceCtx ["a"] ["c"]) (by decide)⟩
